import Mathlib

/-
  Verification development for the auto-store Coupang service.

  Shallow embedding of the service's core logic:
  * the HMAC request signer (CoupangSignatureService.createHmacSignature /
    createParamHmacSignature),
  * the cursor-paginated product-list fetch with bounded retry
    (CoupangApiService.getProductListPaging),
  * the stop-sale / delete mutation wrappers (putStopSellingItem, deleteProduct)
    and the batch loops built on them,
  * the browser workflows (deleteConfirmedCoupangProduct, invoiceUpload,
    crawlCoupangDetailProducts) with explicit release/persist/navigate event
    traces and fault-injection parameters standing for the network/browser,
  * the message dispatcher (CoupangMessageController.processMessage),
  * the purge matching (DeleteConfirmedCoupangProductProvider.findMatchingProducts)
    and the invoice row search (InvoiceUploaderProvider.processOrder).

  External collaborators (axios, playwright, node crypto) appear as explicit
  function parameters describing the outcome of each network / browser step.
-/

namespace AutoStore

/-! ## String primitives (JavaScript semantics) -/

/-- Boolean list-prefix test, `a == b` pointwise (models string prefix). -/
def isPre : List Char → List Char → Bool
  | [], _ => true
  | _ :: _, [] => false
  | a :: as, b :: bs => a == b && isPre as bs

/-- Contiguous-occurrence test: does `pat` occur inside the text?
Models `String.prototype.includes` (case-sensitive). -/
def occurs : List Char → List Char → Bool
  | pat, [] => pat.isEmpty
  | pat, c :: t => isPre pat (c :: t) || occurs pat t

/-- `s.includes(sub)` of JavaScript. -/
def jsIncludes (s sub : String) : Bool := occurs sub.data s.data

/-- Specification-side notion: `sub` is a (case-sensitive) substring of `s`. -/
def SubstringOf (sub s : String) : Prop :=
  ∃ l r, s.data = l ++ sub.data ++ r

/-! ## Purge matching (DeleteConfirmedCoupangProductProvider.findMatchingProducts) -/

/-- A product as returned by the seller API; only the fields the matching
logic reads. -/
structure ApiProduct where
  sellerProductId : Nat
  sellerProductName : String
deriving DecidableEq, Repr, Inhabited

/-- `findMatchingProducts(productCodes, apiProducts)`: keep the API products
whose `sellerProductName` contains at least one extracted code.  The source's
`Array.isArray` / `typeof` guards are vacuously true in the typed model. -/
def findMatchingProducts (productCodes : List String) (apiProducts : List ApiProduct) :
    List ApiProduct :=
  apiProducts.filter fun product =>
    productCodes.any fun code => jsIncludes product.sellerProductName code

/-! ## Paginated product-list fetch (CoupangApiService.getProductListPaging) -/

/-- One page of the seller-product list response: the `data` array (product
records, kept opaque as strings) and the cursor `nextToken`.  The empty
string models a missing or empty token, which is falsy in JavaScript. -/
structure PageResp where
  data : List String
  nextToken : String
deriving DecidableEq, Repr, Inhabited

/-- The inner retry loop of `getProductListPaging` for one page.  `o j` is
the outcome of attempt `j` (0-based) of the signed GET carrying the current
cursor: `some p` means the page was received, `none` a request error.
`remaining` starts at `maxRetries = 3`.  Returns the sleep trace in
milliseconds (a 1000 ms throttle before every attempt, a 2000 ms back-off
after every failure that still has retries left) and either the page paired
with the index of the successful attempt, or an error once the bound is
exhausted (the final failure throws without a back-off sleep). -/
def retryPage (o : Nat → Option PageResp) :
    Nat → Nat → List Nat × Except Unit (PageResp × Nat)
  | 0, _ => ([], .error ())
  | remaining + 1, idx =>
    match o idx with
    | some p => ([1000], .ok (p, idx))
    | none =>
      match remaining with
      | 0 => ([1000], .error ())
      | _ + 1 =>
        let r := retryPage o remaining (idx + 1)
        (1000 :: 2000 :: r.1, r.2)

/-- The message of the error thrown by the outer catch of
`getProductListPaging` (it replaces whatever the retry loop threw). -/
def apiFailMsg : String := "쿠팡 API 요청 실패"

/-- The paging loop of `getProductListPaging`.  `oracle tok j` is the outcome
of attempt `j` of the page request carrying cursor `tok`.  `fuel` bounds the
number of pages visited (a modelling device: `none` means the bound was hit,
which never happens for a terminating fetch).  Returns the list of cursor
tokens actually requested together with either the terminal error of the
outer catch or the in-order concatenation of all page `data` arrays. -/
def runPaging (oracle : String → Nat → Option PageResp) :
    Nat → String → Option (List String × Except String (List String))
  | 0, _ => none
  | fuel + 1, tok =>
    match (retryPage (oracle tok) 3 0).2 with
    | .error _ => some ([tok], .error apiFailMsg)
    | .ok (p, _) =>
      if p.nextToken = "" then some ([tok], .ok p.data)
      else
        match runPaging oracle fuel p.nextToken with
        | none => none
        | some (toks, .error m) => some (tok :: toks, .error m)
        | some (toks, .ok l) => some (tok :: toks, .ok (p.data ++ l))

/-- `getProductListPaging` itself: start with the empty initial cursor and
drop the ghost token trace. -/
def getProductListPaging (oracle : String → Nat → Option PageResp) (fuel : Nat) :
    Option (Except String (List String)) :=
  (runPaging oracle fuel "").map fun x => x.2

/-- The effective per-page result: the page delivered by the first successful
attempt within the retry bound, if any. -/
def effPage (oracle : String → Nat → Option PageResp) (tok : String) :
    Option PageResp :=
  match (retryPage (oracle tok) 3 0).2 with
  | .ok (p, _) => some p
  | .error _ => none

/-- The cursor chain induced by a server: token 0 is the empty initial
cursor; token `i+1` is the `nextToken` of the response to token `i`. -/
def chainTok (server : String → PageResp) : Nat → String
  | 0 => ""
  | i + 1 => (server (chainTok server i)).nextToken

/-- Specification-side description of a complete paginated fetch: the pages
visited from a starting cursor, each next request carrying the previous
response's `nextToken`, ending at the first page that carries no token. -/
inductive FetchSeq (eff : String → Option PageResp) : String → List PageResp → Prop
  | last (tok : String) (p : PageResp) :
      eff tok = some p → p.nextToken = "" → FetchSeq eff tok [p]
  | step (tok : String) (p : PageResp) (ps : List PageResp) :
      eff tok = some p → p.nextToken ≠ "" → FetchSeq eff p.nextToken ps →
      FetchSeq eff tok (p :: ps)

/-- Concrete three-page server used to instantiate the pagination theorems. -/
def srvW : String → PageResp := fun t =>
  if t = "" then ⟨["a1", "a2"], "tokB"⟩
  else if t = "tokB" then ⟨["b1"], "tokC"⟩
  else if t = "tokC" then ⟨["c1"], ""⟩
  else ⟨[], ""⟩

/-- Concrete oracle whose every attempt fails (instantiates the retry bound). -/
def oracleFail : String → Nat → Option PageResp := fun _ _ => none

/-! ## Detail crawl (CoupangCrawlerService.crawlCoupangDetailProducts) -/

/-- Observable events of the detail crawl: a page navigation (the page index
embedded in the inventory-list URL) and a persistence call
(`coupangRepository.saveCoupangProductDetails` with the page's extracted
records, kept opaque as strings). -/
inductive CrawlEv where
  | navigate (pageIdx : Nat)
  | persist (records : List String)
deriving DecidableEq, Repr

/-- The page loop of `crawlCoupangDetailProducts`: scrape the current page
(one navigation; the listing supplies the records the scrape extracts, the
empty list beyond its end), save the scraped records immediately, stop when
a page yielded zero records, otherwise advance the page index by one. -/
def crawlPages : List (List String) → Nat → List CrawlEv
  | [], n => [.navigate n, .persist []]
  | recs :: rest, n =>
    .navigate n :: .persist recs ::
      (if recs = [] then [] else crawlPages rest (n + 1))

/-- `crawlCoupangDetailProducts` starts at page 1. -/
def crawlCoupangDetailProducts (listing : List (List String)) : List CrawlEv :=
  crawlPages listing 1

/-- Number of page navigations in a crawl trace. -/
def countNav (evs : List CrawlEv) : Nat :=
  evs.countP fun e =>
    match e with
    | .navigate _ => true
    | _ => false

/-- The successive record batches handed to the persistence collaborator. -/
def persisted (evs : List CrawlEv) : List (List String) :=
  evs.filterMap fun e =>
    match e with
    | .persist r => some r
    | _ => none

/-! ## Invoice upload (InvoiceUploaderProvider.processOrder,
CoupangService.uploadInvoices) -/

/-- An order handed to the browser invoice-upload workflow (flattened
`order.courier` / `order.receiver` fields). -/
structure InvOrder where
  orderId : String
  courier : String
  trackingNumber : String
  name : String
  safeNumber : String
deriving DecidableEq, Repr, Inhabited

/-- The per-order result record built by `processOrder` / `uploadInvoices`. -/
structure InvResult where
  orderId : String
  status : String
  courierName : String
  trackingNumber : String
  name : String
  safeNumber : String
  error : String
deriving DecidableEq, Repr, Inhabited

/-- The reason recorded when no page holds a matching row. -/
def notFoundMsg : String := "대기중인 상품을 찾을 수 없음"

/-- `findMatchingRow`: first row of the current table page whose text
contains both the receiver name and the safety number. -/
def findMatchingRow (rows : List String) (name safeNumber : String) : Option String :=
  rows.find? fun r => jsIncludes r name && jsIncludes r safeNumber

/-- The result object as initialised at the top of `processOrder`. -/
def initResult (order : InvOrder) : InvResult :=
  { orderId := order.orderId, status := "failed", courierName := order.courier,
    trackingNumber := order.trackingNumber, name := order.name,
    safeNumber := order.safeNumber, error := "" }

/-- The page-search loop of `processOrder` over the remaining table pages
(the browser model: each page is the list of its row texts; moving to the
next page succeeds exactly while a further page exists).  On a match the
checkbox / courier / tracking / apply steps run and the result becomes
`success`; when no page is left the order is marked failed with the
not-found reason. -/
def processOrderPages (order : InvOrder) : List (List String) → InvResult
  | [] => { initResult order with error := notFoundMsg }
  | rows :: rest =>
    match findMatchingRow rows order.name order.safeNumber with
    | some _ => { initResult order with status := "success" }
    | none =>
      match rest with
      | [] => { initResult order with error := notFoundMsg }
      | _ :: _ => processOrderPages order rest

/-- `processOrder` starts the search on page 1. -/
def processOrder (table : List (List String)) (order : InvOrder) : InvResult :=
  processOrderPages order table

/-- The order loop of `CoupangCrawlerService.invoiceUpload`: navigate back to
the delivery-management page and process each order in turn, pushing every
per-order result. -/
def invoiceUploadResults (table : List (List String)) (orders : List InvOrder) :
    List InvResult :=
  orders.map (processOrder table)

/-- An invoice handed to the API-based `CoupangService.uploadInvoices`. -/
structure Invoice where
  orderId : String
  courier : String
  trackNumber : String
  nameText : String
  phoneText : String
deriving DecidableEq, Repr, Inhabited

/-- Fallback error message of `uploadInvoices` for a falsy `error.message`. -/
def unknownErrMsg : String := "알 수 없는 오류"

/-- One iteration of the `uploadInvoices` loop: result defaults to `failed`,
becomes `success` when the API call succeeds, records the error message (or
the fallback) when it throws; the result is pushed either way. -/
def invoiceResult (invoice : Invoice) (outcome : Except String Unit) : InvResult :=
  match outcome with
  | .ok _ =>
    { orderId := invoice.orderId, status := "success", courierName := invoice.courier,
      trackingNumber := invoice.trackNumber, name := invoice.nameText,
      safeNumber := invoice.phoneText, error := "" }
  | .error e =>
    { orderId := invoice.orderId, status := "failed", courierName := invoice.courier,
      trackingNumber := invoice.trackNumber, name := invoice.nameText,
      safeNumber := invoice.phoneText, error := if e = "" then unknownErrMsg else e }

/-- `CoupangService.uploadInvoices`: sequential per-invoice upload, one
result per invoice, failures isolated to their own entry. -/
def uploadInvoices (outcome : Invoice → Except String Unit) (invoices : List Invoice) :
    List InvResult :=
  invoices.map fun invoice => invoiceResult invoice (outcome invoice)

/-- Concrete table row holding receiver "Kim" with safety number "123". -/
def kimRow : String := "order-77 Kim 123 Seoul"

/-- Concrete order matching `kimRow`. -/
def kimOrder : InvOrder := ⟨"O1", "CJGLS", "T111", "Kim", "123"⟩

/-- Concrete order matching no row of the table. -/
def leeOrder : InvOrder := ⟨"O2", "CJGLS", "T222", "Lee", "456"⟩

/-! ## Browser-context release (CoupangCrawlerService.deleteConfirmedCoupangProduct,
CoupangCrawlerService.invoiceUpload) -/

/-- Resource events of a browser workflow; the only one the claims track is
the `playwrightService.releaseContext` call. -/
inductive SessionEv where
  | release
deriving DecidableEq, Repr

/-- Number of releaseContext calls in a trace. -/
def releaseCount (evs : List SessionEv) : Nat := evs.length

/-- The try-body of `deleteConfirmedCoupangProduct` (everything between the
opening `try` and the `catch`).  Fault-injection parameters give the outcome
of each awaited step: `login` (loginToCoupangSite), `navigate`
(navigateToNonConformingProductsPage), `extract`
(extractNonConformingProductCodes, whose failure is caught by the inner
catch), `fetchList` (coupangApiService.getProductListPaging), `stopSale` /
`deleteProds` (the two CoupangService batch calls, only reached when the
matched set is non-empty).  Emits the body's releaseContext events and
either returns the workflow's value (`none` models `undefined`) or
throws. -/
def deleteConfirmedBody
    (login navigate : Except Unit Unit)
    (extract : Except Unit (List String))
    (fetchList : Except Unit (List ApiProduct))
    (stopSale deleteProds : Except Unit Unit) :
    List SessionEv × Except Unit (Option (List ApiProduct)) :=
  match login with
  | .error e => ([], .error e)
  | .ok _ =>
    match navigate with
    | .error e => ([], .error e)
    | .ok _ =>
      match extract with
      | .error _ => ([.release], .ok none)
      | .ok codes =>
        match fetchList with
        | .error e => ([.release], .error e)
        | .ok products =>
          let matched := findMatchingProducts codes products
          if matched.length > 0 then
            match stopSale with
            | .error e => ([.release], .error e)
            | .ok _ =>
              match deleteProds with
              | .error e => ([.release], .error e)
              | .ok _ => ([.release], .ok (some matched))
          else ([.release], .ok (some matched))

/-- `deleteConfirmedCoupangProduct`: the body runs inside try/catch; the
catch handler logs the error, calls releaseContext once more and returns
`undefined`. -/
def deleteConfirmedCoupangProduct
    (login navigate : Except Unit Unit)
    (extract : Except Unit (List String))
    (fetchList : Except Unit (List ApiProduct))
    (stopSale deleteProds : Except Unit Unit) :
    List SessionEv × Option (List ApiProduct) :=
  match deleteConfirmedBody login navigate extract fetchList stopSale deleteProds with
  | (evs, .ok v) => (evs, v)
  | (evs, .error _) => (evs ++ [.release], none)

/-- `CoupangCrawlerService.invoiceUpload`: the login happens before the try
block (its failure propagates with no release); the per-order loop runs
inside try/finally (`navOk = false` models a navigation step throwing inside
the loop) and the finally block releases the context exactly once. -/
def invoiceUpload (login : Except Unit Unit) (navOk : Bool)
    (table : List (List String)) (orders : List InvOrder) :
    List SessionEv × Except Unit (List InvResult) :=
  match login with
  | .error e => ([], .error e)
  | .ok _ =>
    if navOk then ([.release], .ok (invoiceUploadResults table orders))
    else ([.release], .error ())

/-! ## Stop-sale and delete mutations (CoupangApiService.putStopSellingItem,
CoupangApiService.deleteProduct, CoupangService.deleteProducts) -/

/-- `putStopSellingItem`: the signed PUT is awaited inside try/catch; a
failure is logged (a log entry recording the failing vendorItemId and the
error payload) and swallowed — the method returns normally either way. -/
def putStopSellingItem (vendorItemId : Nat) (req : Except String Unit) :
    List (Nat × String) × Except String Unit :=
  match req with
  | .ok _ => ([], .ok ())
  | .error e => ([(vendorItemId, e)], .ok ())

/-- `deleteProduct`: no try/catch — the axios promise is returned as-is, so
any failure propagates unchanged to the caller. -/
def deleteProduct (sellerProductId : Nat) (req : Except String Unit) :
    Except String Unit :=
  req

/-- The item loop of `stopSaleBySellerProductId`: stop-sale every item via
`putStopSellingItem`; failures are swallowed there, so the loop always
completes over all items and the batch returns status `success`. -/
def stopSaleItems (items : List (Nat × Except String Unit)) :
    List (Nat × String) × String :=
  ((items.map fun it => (putStopSellingItem it.1 it.2).1).flatten, "success")

/-- The product loop of `CoupangService.deleteProducts`: each delete is
awaited inside try/catch; on success the product id joins `deletedProducts`,
on failure the error is logged and the loop continues with the remaining
products. -/
def deleteProductsBatch (items : List (Nat × Except String Unit)) : List Nat :=
  match items with
  | [] => []
  | (pid, req) :: rest =>
    match deleteProduct pid req with
    | .ok _ => pid :: deleteProductsBatch rest
    | .error _ => deleteProductsBatch rest

/-! ## Message dispatcher (CoupangMessageController.processMessage) -/

/-- What a `case` of the dispatcher switch hands back to the transport:
a result envelope (`status` with optional `message` and optional payload),
the bare string `'success'`, or `undefined` for the cases that end in
`break`. -/
inductive DispatchResult (α : Type) where
  | obj (status : String) (message : Option String) (payload : Option α)
  | str (s : String)
  | undef
deriving DecidableEq, Repr

/-- The recognized `pattern` values of the switch, in source order. -/
def knownPatterns : List String :=
  ["orderStatusUpdate", "uploadInvoices", "crawlCoupangPriceComparison",
   "deleteConfirmedCoupangProduct", "getProductListPaging", "getProductDetail",
   "newGetCoupangOrderList", "putStopSellingItem", "stopSaleBySellerProductId",
   "deleteBySellerProductId", "coupangProductsPriceControl",
   "shippingCostManagement", "clearCoupangComparison", "saveUpdateCoupangItems",
   "getComparisonCount", "putOrderStatus"]

/-- The default-branch message, `알 수 없는 패턴 유형: ${pattern}`. -/
def unknownPatternMsg (pattern : String) : String :=
  "알 수 없는 패턴 유형: " ++ pattern

/-- Awaiting a handler call and building the case's return value from its
result; `processMessage` has no try/catch, so a thrown handler error
propagates unchanged. -/
def awaitThen {α β : Type} (r : Except String α) (f : α → β) : Except String β :=
  match r with
  | .error e => .error e
  | .ok a => .ok (f a)

/-- `processMessage`: the switch on `pattern`, each recognized case awaiting
the corresponding service call (`handler pattern` models it, with `α` the
payload type) and returning that case's envelope; the default branch returns
the unknown-pattern error envelope. -/
def processMessage {α : Type} (handler : String → Except String α) (pattern : String) :
    Except String (DispatchResult α) :=
  if pattern = "orderStatusUpdate" then
    awaitThen (handler pattern) fun _ => .undef
  else if pattern = "uploadInvoices" then
    awaitThen (handler pattern) fun r => .obj "success" none (some r)
  else if pattern = "crawlCoupangPriceComparison" then
    awaitThen (handler pattern) fun _ => .str "success"
  else if pattern = "deleteConfirmedCoupangProduct" then
    awaitThen (handler pattern) fun r => .obj "success" none (some r)
  else if pattern = "getProductListPaging" then
    awaitThen (handler pattern) fun r => .obj "success" none (some r)
  else if pattern = "getProductDetail" then
    awaitThen (handler pattern) fun r => .obj "success" none (some r)
  else if pattern = "newGetCoupangOrderList" then
    awaitThen (handler pattern) fun r => .obj "success" none (some r)
  else if pattern = "putStopSellingItem" then
    awaitThen (handler pattern) fun _ => .undef
  else if pattern = "stopSaleBySellerProductId" then
    awaitThen (handler pattern) fun _ => .obj "success" none none
  else if pattern = "deleteBySellerProductId" then
    awaitThen (handler pattern) fun _ => .obj "success" none none
  else if pattern = "coupangProductsPriceControl" then
    awaitThen (handler pattern) fun _ => .undef
  else if pattern = "shippingCostManagement" then
    awaitThen (handler pattern) fun r => .obj "success" none (some r)
  else if pattern = "clearCoupangComparison" then
    awaitThen (handler pattern) fun _ => .obj "success" none none
  else if pattern = "saveUpdateCoupangItems" then
    awaitThen (handler pattern) fun _ => .obj "success" none none
  else if pattern = "getComparisonCount" then
    awaitThen (handler pattern) fun r => .obj "success" none (some r)
  else if pattern = "putOrderStatus" then
    awaitThen (handler pattern) fun _ => .undef
  else
    .ok (.obj "error" (some (unknownPatternMsg pattern)) none)

/-! ## Request signer (CoupangSignatureService) -/

/-- A wall-clock instant as `new Date()` exposes it (UTC fields). -/
structure DateTime where
  year : Nat
  month : Nat
  day : Nat
  hour : Nat
  minute : Nat
  second : Nat
  millis : Nat
deriving DecidableEq, Repr, Inhabited

/-- The field ranges `toISOString` produces (wide enough bounds for the
format proofs; real dates satisfy them). -/
def ValidTime (t : DateTime) : Prop :=
  t.year < 10000 ∧ t.month < 100 ∧ t.day < 100 ∧ t.hour < 100
    ∧ t.minute < 100 ∧ t.second < 100 ∧ t.millis < 1000

/-- Two-digit zero-padded decimal field of `toISOString` (for values below
100). -/
def pad2 (n : Nat) : String :=
  String.mk [Nat.digitChar (n / 10), Nat.digitChar (n % 10)]

/-- Three-digit zero-padded milliseconds field of `toISOString`. -/
def pad3 (n : Nat) : String :=
  String.mk [Nat.digitChar (n / 100), Nat.digitChar (n / 10 % 10), Nat.digitChar (n % 10)]

/-- Four-digit zero-padded year field of `toISOString`. -/
def pad4 (n : Nat) : String :=
  String.mk [Nat.digitChar (n / 1000), Nat.digitChar (n / 100 % 10),
    Nat.digitChar (n / 10 % 10), Nat.digitChar (n % 10)]

/-- `Date.prototype.toISOString`: `YYYY-MM-DDTHH:mm:ss.sssZ`. -/
def toISOString (t : DateTime) : String :=
  pad4 t.year ++ "-" ++ pad2 t.month ++ "-" ++ pad2 t.day ++ "T"
    ++ pad2 t.hour ++ ":" ++ pad2 t.minute ++ ":" ++ pad2 t.second
    ++ "." ++ pad3 t.millis ++ "Z"

/-- `String.prototype.substr(start, length)`. -/
def jsSubstr (s : String) (start len : Nat) : String :=
  String.mk ((s.data.drop start).take len)

/-- The two global replaces removing every colon and every dash. -/
def stripSeps (s : String) : String :=
  String.mk (s.data.filter fun c => !(c == '-' || c == ':'))

/-- The signer's timestamp: `toISOString` of the current instant, then
`.substr(2, 17)`, then the colon and dash replaces, then a trailing `Z`
(`createParamHmacSignature` uses the equivalent `.slice(2, 19)`). -/
def coupangDatetime (t : DateTime) : String :=
  stripSeps (jsSubstr (toISOString t) 2 17) ++ "Z"

/-- Specification-side description of the timestamp: truncated ISO8601 —
two-digit year, the date/time separators `-` and `:` stripped (the `T`
designator kept), milliseconds dropped — plus the trailing `Z`. -/
def specTimestamp (t : DateTime) : String :=
  pad2 (t.year % 100) ++ pad2 t.month ++ pad2 t.day ++ "T"
    ++ pad2 t.hour ++ pad2 t.minute ++ pad2 t.second ++ "Z"

/-- Bytes the WHATWG `application/x-www-form-urlencoded` serializer (used by
`URLSearchParams.toString`) leaves unescaped: ASCII alphanumerics and
`*`, `-`, `.`, `_`. -/
def isUrlSafeByte (n : Nat) : Bool :=
  decide ((48 ≤ n ∧ n ≤ 57) ∨ (65 ≤ n ∧ n ≤ 90) ∨ (97 ≤ n ∧ n ≤ 122)
    ∨ n = 42 ∨ n = 45 ∨ n = 46 ∨ n = 95)

/-- Uppercase hexadecimal digit. -/
def hexDigitUpper (n : Nat) : Char :=
  if n < 10 then Nat.digitChar n else Char.ofNat (65 + (n - 10))

/-- Serialization of one UTF-8 byte: unescaped, `+` for space, or `%XX`. -/
def encodeByte (n : Nat) : List Char :=
  if isUrlSafeByte n then [Char.ofNat n]
  else if n = 32 then ['+']
  else ['%', hexDigitUpper (n / 16), hexDigitUpper (n % 16)]

/-- Form-urlencoding of a string over its UTF-8 bytes
(`s.data.flatMap String.utf8EncodeChar` is the byte sequence of
`String.toUTF8`). -/
def formEncode (s : String) : String :=
  String.mk (((s.data.flatMap String.utf8EncodeChar).map fun b => encodeByte b.toNat).flatten)

/-- `URLSearchParams(pairs).toString()`: `k=v` pairs joined with `&`, keys
and values form-urlencoded, in insertion order. -/
def urlSearchParams : List (String × String) → String
  | [] => ""
  | [p] => formEncode p.1 ++ "=" ++ formEncode p.2
  | p :: q :: rest =>
    formEncode p.1 ++ "=" ++ formEncode p.2 ++ "&" ++ urlSearchParams (q :: rest)

/-- The fixed parameter object of `createHmacSignature`'s paging mode. -/
def pagingParams (vendorId nextToken : String) : List (String × String) :=
  [("vendorId", vendorId), ("nextToken", nextToken),
   ("maxPerPage", "100"), ("status", "APPROVED")]

/-- The canonicalized query of `createHmacSignature`: the fixed paging
parameter set when `useQuery`, the empty string otherwise. -/
def signQuery (vendorId nextToken : String) (useQuery : Bool) : String :=
  if useQuery then urlSearchParams (pagingParams vendorId nextToken) else ""

/-- The message fed to the HMAC: `datetime + method + path + query`. -/
def signMessage (vendorId : String) (t : DateTime)
    (method path nextToken : String) (useQuery : Bool) : String :=
  coupangDatetime t ++ method ++ path ++ signQuery vendorId nextToken useQuery

/-- The hex signature.  `hmac` stands for the external
`crypto.createHmac('sha256', secretKey).update(message).digest('hex')`;
the embedding passes it explicitly as a function of the secret key and the
message. -/
def signSignature (hmac : String → String → String) (secretKey vendorId : String)
    (t : DateTime) (method path nextToken : String) (useQuery : Bool) : String :=
  hmac secretKey (signMessage vendorId t method path nextToken useQuery)

/-- `createHmacSignature`: the `{authorization, datetime}` pair. -/
def createHmacSignature (hmac : String → String → String)
    (secretKey accessKey vendorId : String) (t : DateTime)
    (method path nextToken : String) (useQuery : Bool) : String × String :=
  ("CEA algorithm=HmacSHA256, access-key=" ++ accessKey ++ ", signed-date="
      ++ coupangDatetime t ++ ", signature="
      ++ signSignature hmac secretKey vendorId t method path nextToken useQuery,
    coupangDatetime t)

/-- `createParamHmacSignature`: same construction over an arbitrary
parameter map (its `.slice(2, 19)` timestamp equals the `.substr(2, 17)`
one). -/
def createParamHmacSignature (hmac : String → String → String)
    (secretKey accessKey : String) (t : DateTime)
    (method path : String) (params : List (String × String)) : String × String :=
  ("CEA algorithm=HmacSHA256, access-key=" ++ accessKey ++ ", signed-date="
      ++ coupangDatetime t ++ ", signature="
      ++ hmac secretKey (coupangDatetime t ++ method ++ path ++ urlSearchParams params),
    coupangDatetime t)

end AutoStore

namespace AutoStore

/-! ## Theorems -/

theorem isPre_iff (p s : List Char) : isPre p s = true ↔ ∃ r, s = p ++ r := by
  induction p generalizing s with
  | nil => simp [isPre]
  | cons a as ih =>
    cases s with
    | nil => simp [isPre]
    | cons b bs =>
      simp only [isPre, Bool.and_eq_true, beq_iff_eq, ih]
      constructor
      · rintro ⟨h1, r, h2⟩
        exact ⟨r, by simp [h1, h2]⟩
      · rintro ⟨r, h⟩
        injection h with h1 h2
        exact ⟨h1.symm, r, h2⟩

theorem occurs_iff (p s : List Char) : occurs p s = true ↔ ∃ l r, s = l ++ p ++ r := by
  induction s with
  | nil =>
    simp only [occurs, List.isEmpty_iff]
    constructor
    · intro h; exact ⟨[], [], by simp [h]⟩
    · rintro ⟨l, r, h⟩
      rcases List.append_eq_nil.mp h.symm with ⟨h1, h2⟩
      rcases List.append_eq_nil.mp h1 with ⟨_, h3⟩
      exact h3
  | cons c t ih =>
    simp only [occurs, Bool.or_eq_true, isPre_iff, ih]
    constructor
    · rintro (⟨r, h⟩ | ⟨l, r, h⟩)
      · exact ⟨[], r, by simp [h]⟩
      · exact ⟨c :: l, r, by simp [h]⟩
    · rintro ⟨l, r, h⟩
      cases l with
      | nil => exact Or.inl ⟨r, by simpa using h⟩
      | cons x xs =>
        injection h with h1 h2
        exact Or.inr ⟨xs, r, h2⟩

theorem jsIncludes_iff (s sub : String) : jsIncludes s sub = true ↔ SubstringOf sub s := by
  unfold jsIncludes SubstringOf
  exact occurs_iff sub.data s.data

/-- C5. For every list of extracted product codes and every list of API
products, the purge's matched set contains a product iff at least one
extracted code is a case-sensitive substring of that product's
`sellerProductName`; on codes ["A100","B200"], the name "A100-Blue Widget"
is matched and "C300-Red Widget" is not. -/
theorem coupang_c5_match_iff :
    (∀ (codes : List String) (products : List ApiProduct) (p : ApiProduct),
        p ∈ findMatchingProducts codes products ↔
          p ∈ products ∧ ∃ code ∈ codes, SubstringOf code p.sellerProductName)
    ∧ findMatchingProducts ["A100", "B200"]
        [⟨1, "A100-Blue Widget"⟩, ⟨2, "C300-Red Widget"⟩]
      = [⟨1, "A100-Blue Widget"⟩] := by
  constructor
  · intro codes products p
    simp only [findMatchingProducts, List.mem_filter, List.any_eq_true, jsIncludes_iff]
  · decide

/-! ### Pagination lemmas -/

theorem range_succ_map {α : Type} (n : Nat) (f : Nat → α) :
    (List.range (n + 1)).map f = f 0 :: (List.range n).map fun m => f (m + 1) := by
  simp [List.range_succ_eq_map, List.map_map]

theorem chainTok_shift (server : String → PageResp) (i j : Nat)
    (h : chainTok server i = chainTok server j) :
    ∀ m, chainTok server (i + m) = chainTok server (j + m) := by
  intro m
  induction m with
  | zero => simpa using h
  | succ m ih =>
    show chainTok server ((i + m) + 1) = chainTok server ((j + m) + 1)
    simp only [chainTok, ih]

theorem chainTok_inj (server : String → PageResp) (k : Nat)
    (hmin : ∀ i, i < k → (server (chainTok server i)).nextToken ≠ "")
    (hterm : (server (chainTok server k)).nextToken = "") :
    ∀ i j, i ≤ k → j ≤ k → chainTok server i = chainTok server j → i = j := by
  suffices h : ∀ i j, i < j → j ≤ k → chainTok server i = chainTok server j → False by
    intro i j hi hj he
    rcases Nat.lt_trichotomy i j with h1 | h1 | h1
    · exact (h i j h1 hj he).elim
    · exact h1
    · exact (h j i h1 hi he.symm).elim
  intro i j hij hjk he
  have hsh := chainTok_shift server i j he (k - j)
  have h1 : j + (k - j) = k := by omega
  rw [h1] at hsh
  have h3 : i + (k - j) < k := by omega
  exact hmin _ h3 (by rw [hsh]; exact hterm)

theorem effPage_ok (oracle : String → Nat → Option PageResp) (tok : String)
    (p : PageResp) (a : Nat) (h : (retryPage (oracle tok) 3 0).2 = .ok (p, a)) :
    effPage oracle tok = some p := by
  simp only [effPage, h]

theorem runPaging_eff (oracle : String → Nat → Option PageResp)
    (server : String → PageResp)
    (heff : ∀ t, effPage oracle t = some (server t)) (k : Nat)
    (hterm : (server (chainTok server k)).nextToken = "")
    (hmin : ∀ i, i < k → (server (chainTok server i)).nextToken ≠ "") :
    ∀ fuel j, j ≤ k → k + 1 - j ≤ fuel →
      runPaging oracle fuel (chainTok server j)
        = some ((List.range (k + 1 - j)).map (fun m => chainTok server (j + m)),
            .ok (((List.range (k + 1 - j)).map
                fun m => (server (chainTok server (j + m))).data).flatten)) := by
  intro fuel
  induction fuel with
  | zero => intro j hj hf; exfalso; omega
  | succ fuel ih =>
    intro j hj hf
    have he := heff (chainTok server j)
    rcases hr : (retryPage (oracle (chainTok server j)) 3 0).2 with _ | ⟨p, a⟩
    · simp only [effPage, hr] at he
      exact Option.noConfusion he
    · have hps : p = server (chainTok server j) := by
        simp only [effPage, hr, Option.some.injEq] at he
        exact he
      subst hps
      simp only [runPaging, hr]
      by_cases hn : (server (chainTok server j)).nextToken = ""
      · have hjk : j = k := by
          rcases Nat.lt_or_ge j k with h | h
          · exact absurd hn (hmin j h)
          · omega
        subst hjk
        have h1 : j + 1 - j = 1 := by omega
        simp [hn, h1, List.range_succ]
      · have hjk : j < k := by
          rcases Nat.lt_or_ge j k with h | h
          · exact h
          · have hje : j = k := by omega
            subst hje
            exact absurd hterm hn
        have hnext : (server (chainTok server j)).nextToken = chainTok server (j + 1) := rfl
        have hrec := ih (j + 1) (by omega) (by omega)
        rw [if_neg hn, hnext, hrec]
        have hsn : k + 1 - j = (k - j) + 1 := by omega
        have hsn2 : k + 1 - (j + 1) = k - j := by omega
        rw [hsn, hsn2, range_succ_map, range_succ_map]
        simp only [Nat.add_zero, List.flatten_cons, Option.some.injEq, Prod.mk.injEq]
        constructor
        · congr 1
          apply List.map_congr_left
          intro m _
          have hidx : j + 1 + m = j + (m + 1) := by omega
          rw [hidx]
        · congr 1
          congr 1
          congr 1
          apply List.map_congr_left
          intro m _
          have hidx : j + 1 + m = j + (m + 1) := by omega
          rw [hidx]

/-- C1. For every paginated list fetch in which every page request
eventually succeeds (within the retry bound, yielding the pages of a server
function), the fetch returns the in-order concatenation of the `data` arrays
of all pages visited; the requests carry exactly the cursor chain (each next
request uses the `nextToken` of the previous response), the loop stops at
the first response with no cursor token (requests 0..k for minimal k), and
no cursor is requested twice. -/
theorem coupang_c1_paging_concat
    (oracle : String → Nat → Option PageResp) (server : String → PageResp) (k : Nat)
    (heff : ∀ t, effPage oracle t = some (server t))
    (hterm : (server (chainTok server k)).nextToken = "")
    (hmin : ∀ i, i < k → (server (chainTok server i)).nextToken ≠ "")
    (fuel : Nat) (hfuel : k + 1 ≤ fuel) :
    runPaging oracle fuel ""
      = some ((List.range (k + 1)).map (chainTok server),
          .ok (((List.range (k + 1)).map
              fun i => (server (chainTok server i)).data).flatten))
    ∧ ((List.range (k + 1)).map (chainTok server)).Nodup
    ∧ ∀ i, i < k → chainTok server (i + 1) = (server (chainTok server i)).nextToken := by
  refine ⟨?_, ?_, fun i _ => rfl⟩
  · have h := runPaging_eff oracle server heff k hterm hmin fuel 0 (by omega) (by omega)
    simpa using h
  · have hinj := chainTok_inj server k hmin hterm
    refine (List.nodup_range (k + 1)).map_on ?_
    intro x hx y hy hxy
    exact hinj x y (by simp at hx; omega) (by simp at hy; omega) hxy

/-- C1 witness: a concrete three-page run. -/
theorem coupang_c1_witness :
    runPaging (fun t _ => some (srvW t)) 5 ""
      = some (["", "tokB", "tokC"], .ok ["a1", "a2", "b1", "c1"])
    ∧ (["", "tokB", "tokC"] : List String).Nodup := by
  have h := coupang_c1_paging_concat (fun t _ => some (srvW t)) srvW 2
    (fun t => rfl) (by decide) (by decide) 5 (by omega)
  refine ⟨?_, by decide⟩
  rw [h.1]
  rfl

/-! ### Retry-bound lemmas -/

theorem retryPage_succ (o : Nat → Option PageResp) (r idx : Nat) :
    retryPage o (r + 1) idx
      = match o idx with
        | some p => ([1000], .ok (p, idx))
        | none =>
          match r with
          | 0 => ([1000], .error ())
          | _ + 1 =>
            (1000 :: 2000 :: (retryPage o r (idx + 1)).1,
              (retryPage o r (idx + 1)).2) := rfl

theorem retryPage_ok_char (o : Nat → Option PageResp) :
    ∀ remaining idx tr p a, retryPage o remaining idx = (tr, .ok (p, a)) →
      idx ≤ a ∧ a < idx + remaining ∧ o a = some p
      ∧ (∀ j, idx ≤ j → j < a → o j = none)
      ∧ tr = (List.replicate (a - idx) ([1000, 2000] : List Nat)).flatten ++ [1000] := by
  intro remaining
  induction remaining with
  | zero => intro idx tr p a h; simp [retryPage] at h
  | succ remaining ih =>
    intro idx tr p a h
    rw [retryPage_succ] at h
    rcases ho : o idx with _ | p0
    · rw [ho] at h
      rcases remaining with _ | r
      · simp at h
      · have h2 : (retryPage o (r + 1) (idx + 1)).2 = .ok (p, a) := by
          have := congrArg Prod.snd h
          simpa using this
        have h1 : tr = 1000 :: 2000 :: (retryPage o (r + 1) (idx + 1)).1 := by
          have := congrArg Prod.fst h
          simpa using this.symm
        have hrec := ih (idx + 1) (retryPage o (r + 1) (idx + 1)).1 p a (by rw [← h2])
        obtain ⟨ha1, ha2, ha3, ha4, ha5⟩ := hrec
        refine ⟨by omega, by omega, ha3, ?_, ?_⟩
        · intro j hj1 hj2
          rcases Nat.eq_or_lt_of_le hj1 with hje | hjl
          · rw [← hje]; exact ho
          · exact ha4 j hjl hj2
        · have hd : a - idx = (a - (idx + 1)) + 1 := by omega
          rw [h1, ha5, hd, List.replicate_succ, List.flatten_cons]
          simp
    · rw [ho] at h
      simp only [Prod.mk.injEq, Except.ok.injEq] at h
      obtain ⟨h1, h2, h3⟩ := h
      refine ⟨by omega, by omega, ?_, ?_, ?_⟩
      · rw [← h3, ho, h2]
      · intro j hj1 hj2
        omega
      · rw [← h1]
        have : a - idx = 0 := by omega
        simp [this]

theorem retryPage_allfail (o : Nat → Option PageResp) (h : ∀ j, j < 3 → o j = none) :
    retryPage o 3 0 = ([1000, 2000, 1000, 2000, 1000], .error ()) := by
  have h0 := h 0 (by omega)
  have h1 := h 1 (by omega)
  have h2 := h 2 (by omega)
  rw [show (3 : Nat) = 2 + 1 from rfl, retryPage_succ, h0]
  rw [show (2 : Nat) = 1 + 1 from rfl, retryPage_succ, h1]
  rw [show (1 : Nat) = 0 + 1 from rfl, retryPage_succ, h2]

theorem runPaging_err_msg (oracle : String → Nat → Option PageResp) :
    ∀ fuel tok toks m,
      runPaging oracle fuel tok = some (toks, .error m) → m = apiFailMsg := by
  intro fuel
  induction fuel with
  | zero => intro tok toks m h; simp [runPaging] at h
  | succ fuel ih =>
    intro tok toks m h
    rw [runPaging] at h
    rcases hr : (retryPage (oracle tok) 3 0).2 with _ | ⟨p, a⟩
    · rw [hr] at h
      simp at h
      exact h.2.symm
    · rw [hr] at h
      by_cases hn : p.nextToken = ""
      · simp [hn] at h
      · simp only [if_neg hn] at h
        rcases hrun : runPaging oracle fuel p.nextToken with _ | ⟨toks', r'⟩
        · rw [hrun] at h; simp at h
        · rw [hrun] at h
          rcases r' with m' | l'
          · simp at h
            rw [← h.2]
            exact ih p.nextToken toks' m' hrun
          · simp at h

theorem runPaging_ok_fetchSeq (oracle : String → Nat → Option PageResp) :
    ∀ fuel tok toks l,
      runPaging oracle fuel tok = some (toks, .ok l) →
        ∃ ps, FetchSeq (effPage oracle) tok ps ∧ l = (ps.map PageResp.data).flatten := by
  intro fuel
  induction fuel with
  | zero => intro tok toks l h; simp [runPaging] at h
  | succ fuel ih =>
    intro tok toks l h
    rw [runPaging] at h
    rcases hr : (retryPage (oracle tok) 3 0).2 with _ | ⟨p, a⟩
    · rw [hr] at h
      simp at h
    · rw [hr] at h
      have heffp : effPage oracle tok = some p := effPage_ok oracle tok p a hr
      by_cases hn : p.nextToken = ""
      · simp only [if_pos hn, Option.some.injEq, Prod.mk.injEq] at h
        refine ⟨[p], FetchSeq.last tok p heffp hn, ?_⟩
        have hld := Except.ok.inj h.2
        simp [← hld]
      · simp only [if_neg hn] at h
        rcases hrun : runPaging oracle fuel p.nextToken with _ | ⟨toks', r'⟩
        · rw [hrun] at h; simp at h
        · rw [hrun] at h
          rcases r' with m' | l'
          · simp at h
          · simp only [Option.some.injEq, Prod.mk.injEq] at h
            obtain ⟨ps', hseq', hl'⟩ := ih p.nextToken toks' l' hrun
            refine ⟨p :: ps', FetchSeq.step tok p ps' heffp hn hseq', ?_⟩
            have hld := Except.ok.inj h.2
            rw [← hld, hl']
            simp

/-- C2. Each page request is retried within the fixed bound `maxRetries = 3`
(at most three attempts, separated by 2000 ms back-off sleeps, with a
1000 ms throttle before each attempt); a page whose three attempts all fail
makes the whole fetch return the terminal error `쿠팡 API 요청 실패`; every
error outcome carries that terminal message and no products, and every
successful outcome is the complete concatenation of a full fetch sequence —
the caller never observes a partial result. -/
theorem coupang_c2_retry_all_or_error :
    (∀ o : Nat → Option PageResp, (∀ j, j < 3 → o j = none) →
        retryPage o 3 0 = ([1000, 2000, 1000, 2000, 1000], .error ()))
    ∧ (∀ (o : Nat → Option PageResp) (tr : List Nat) (p : PageResp) (a : Nat),
        retryPage o 3 0 = (tr, .ok (p, a)) →
          a < 3 ∧ o a = some p ∧ (∀ j, j < a → o j = none)
          ∧ tr = (List.replicate a ([1000, 2000] : List Nat)).flatten ++ [1000])
    ∧ (∀ (oracle : String → Nat → Option PageResp) (tok : String) (fuel : Nat),
        (∀ j, j < 3 → oracle tok j = none) → 1 ≤ fuel →
          runPaging oracle fuel tok = some ([tok], .error apiFailMsg))
    ∧ (∀ (oracle : String → Nat → Option PageResp) (fuel : Nat)
        (toks : List String) (m : String),
        runPaging oracle fuel "" = some (toks, .error m) → m = apiFailMsg)
    ∧ (∀ (oracle : String → Nat → Option PageResp) (fuel : Nat)
        (toks : List String) (l : List String),
        runPaging oracle fuel "" = some (toks, .ok l) →
          ∃ ps, FetchSeq (effPage oracle) "" ps ∧ l = (ps.map PageResp.data).flatten) := by
  refine ⟨retryPage_allfail, ?_, ?_, ?_, ?_⟩
  · intro o tr p a h
    obtain ⟨h1, h2, h3, h4, h5⟩ := retryPage_ok_char o 3 0 tr p a h
    refine ⟨by omega, h3, fun j hj => h4 j (by omega) hj, ?_⟩
    simpa using h5
  · intro oracle tok fuel h hf
    rcases fuel with _ | fuel
    · omega
    · rw [runPaging, retryPage_allfail (oracle tok) h]
  · intro oracle fuel toks m h
    exact runPaging_err_msg oracle fuel "" toks m h
  · intro oracle fuel toks l h
    exact runPaging_ok_fetchSeq oracle fuel "" toks l h

/-- C2 witness: all three attempts of the initial page fail and the fetch
returns the terminal error; a successful run yields a complete sequence. -/
theorem coupang_c2_witness :
    retryPage (oracleFail "") 3 0 = ([1000, 2000, 1000, 2000, 1000], .error ())
    ∧ runPaging oracleFail 1 "" = some ([""], .error apiFailMsg)
    ∧ (∃ ps, FetchSeq (effPage fun t _ => some (srvW t)) "" ps
        ∧ ["a1", "a2", "b1", "c1"] = (ps.map PageResp.data).flatten) := by
  refine ⟨coupang_c2_retry_all_or_error.1 (oracleFail "") (fun j _ => rfl),
    coupang_c2_retry_all_or_error.2.2.1 oracleFail "" 1 (fun j _ => rfl) (by omega),
    coupang_c2_retry_all_or_error.2.2.2.2 (fun t _ => some (srvW t)) 5
      ["", "tokB", "tokC"] ["a1", "a2", "b1", "c1"] rfl⟩

/-! ### Detail-crawl lemmas -/

theorem crawlPages_eq (listing : List (List String)) :
    ∀ n, crawlPages listing n
      = ((List.range ((listing.takeWhile fun p => !p.isEmpty).length + 1)).map
          fun i => [CrawlEv.navigate (i + n), CrawlEv.persist (listing.getD i [])]).flatten := by
  induction listing with
  | nil =>
    intro n
    simp [crawlPages, List.range_succ]
  | cons recs rest ih =>
    intro n
    by_cases hr : recs = []
    · subst hr
      simp [crawlPages, List.takeWhile_cons, List.range_succ]
    · have hne : recs.isEmpty = false := by
        cases recs with
        | nil => exact absurd rfl hr
        | cons a l => rfl
      have hlen : ((recs :: rest).takeWhile fun p => !p.isEmpty).length
          = (rest.takeWhile fun p => !p.isEmpty).length + 1 := by
        simp [List.takeWhile_cons, hne]
      rw [crawlPages, if_neg hr, ih (n + 1), hlen]
      conv_rhs => rw [range_succ_map]
      simp only [List.flatten_cons, Nat.zero_add, List.getD_cons_zero]
      congr 1
      congr 1
      congr 1
      apply List.map_congr_left
      intro m _
      simp only [List.getD_cons_succ]
      rw [show m + (n + 1) = m + 1 + n from by omega]

/-- C6. The detail crawl persists each page's extracted records immediately
after scraping that page, terminates exactly at the first page yielding zero
records, and otherwise advances the page index by one (trace equation over
any listing); on a mock listing of 2 non-empty pages then 1 empty page it
issues exactly 3 navigations and persists the 2 pages of records (the final
persistence call carries the empty page's zero records). -/
theorem coupang_c6_detail_crawl :
    (∀ listing : List (List String),
        crawlCoupangDetailProducts listing
          = ((List.range ((listing.takeWhile fun p => !p.isEmpty).length + 1)).map
              fun i => [CrawlEv.navigate (i + 1), CrawlEv.persist (listing.getD i [])]).flatten)
    ∧ ∀ p1 p2 : List String, p1 ≠ [] → p2 ≠ [] →
        crawlCoupangDetailProducts [p1, p2, []]
          = [.navigate 1, .persist p1, .navigate 2, .persist p2, .navigate 3, .persist []]
        ∧ countNav (crawlCoupangDetailProducts [p1, p2, []]) = 3
        ∧ persisted (crawlCoupangDetailProducts [p1, p2, []]) = [p1, p2, []] := by
  constructor
  · intro listing
    exact crawlPages_eq listing 1
  · intro p1 p2 hp1 hp2
    refine ⟨?_, ?_, ?_⟩ <;>
      simp [crawlCoupangDetailProducts, crawlPages, hp1, hp2, countNav, persisted]

/-- C6 witness at a concrete two-page listing. -/
theorem coupang_c6_witness :
    crawlCoupangDetailProducts [["r1"], ["r2"], []]
      = [.navigate 1, .persist ["r1"], .navigate 2, .persist ["r2"],
         .navigate 3, .persist []]
    ∧ countNav (crawlCoupangDetailProducts [["r1"], ["r2"], []]) = 3
    ∧ persisted (crawlCoupangDetailProducts [["r1"], ["r2"], []]) = [["r1"], ["r2"], []] :=
  coupang_c6_detail_crawl.2 ["r1"] ["r2"] (by decide) (by decide)

/-! ### Invoice-upload lemmas -/

theorem processOrderPages_cons (order : InvOrder) (rows : List String)
    (rest : List (List String)) :
    processOrderPages order (rows :: rest)
      = match findMatchingRow rows order.name order.safeNumber with
        | some _ => { initResult order with status := "success" }
        | none =>
          match rest with
          | [] => { initResult order with error := notFoundMsg }
          | _ :: _ => processOrderPages order rest := rfl

theorem processOrderPages_notfound (order : InvOrder) :
    ∀ table : List (List String),
      (∀ rows ∈ table, findMatchingRow rows order.name order.safeNumber = none) →
        processOrderPages order table = { initResult order with error := notFoundMsg } := by
  intro table
  induction table with
  | nil => intro _; rfl
  | cons rows rest ih =>
    intro h
    rw [processOrderPages_cons, h rows (by simp)]
    cases rest with
    | nil => rfl
    | cons r2 rest2 => exact ih fun rows hr => h rows (by simp [hr])

/-- C4. The invoice upload returns one result per input order, in input
order; each order's outcome is a function of that order alone, so no order's
failure aborts the others (both in the browser workflow and in the API-based
`uploadInvoices`); an order whose matching row is not found after exhausting
all table pages yields a failed entry carrying the not-found reason; on the
spec's Kim/Lee example the result list has both entries, success then
failure. -/
theorem coupang_c4_invoice_per_order :
    (∀ (table : List (List String)) (orders : List InvOrder),
        (invoiceUploadResults table orders).length = orders.length)
    ∧ (∀ (table : List (List String)) (pre : List InvOrder) (o : InvOrder)
        (post : List InvOrder),
        invoiceUploadResults table (pre ++ o :: post)
          = invoiceUploadResults table pre
            ++ processOrder table o :: invoiceUploadResults table post)
    ∧ (∀ (table : List (List String)) (order : InvOrder),
        (∀ rows ∈ table, findMatchingRow rows order.name order.safeNumber = none) →
          processOrder table order = { initResult order with error := notFoundMsg })
    ∧ (∀ (outcome : Invoice → Except String Unit) (invoices : List Invoice),
        (uploadInvoices outcome invoices).length = invoices.length)
    ∧ (∀ (outcome : Invoice → Except String Unit) (pre : List Invoice)
        (inv : Invoice) (post : List Invoice),
        uploadInvoices outcome (pre ++ inv :: post)
          = uploadInvoices outcome pre
            ++ invoiceResult inv (outcome inv) :: uploadInvoices outcome post)
    ∧ invoiceUploadResults [[kimRow]] [kimOrder, leeOrder]
        = [{ initResult kimOrder with status := "success" },
           { initResult leeOrder with error := notFoundMsg }] := by
  refine ⟨?_, ?_, ?_, ?_, ?_, ?_⟩
  · intro table orders
    simp [invoiceUploadResults]
  · intro table pre o post
    simp [invoiceUploadResults]
  · intro table order h
    exact processOrderPages_notfound order table h
  · intro outcome invoices
    simp [uploadInvoices]
  · intro outcome pre inv post
    simp [uploadInvoices]
  · decide

/-- C4 witness: the not-found conjunct at the concrete Lee order. -/
theorem coupang_c4_witness :
    processOrder [[kimRow]] leeOrder = { initResult leeOrder with error := notFoundMsg } :=
  coupang_c4_invoice_per_order.2.2.1 [[kimRow]] leeOrder (by decide)

/-! ### Browser-context release theorems -/

/-- C3 counterexample: with login, navigation and extraction succeeding and
the product-list API fetch throwing, `deleteConfirmedCoupangProduct` calls
releaseContext twice — once before the API phase and once in the catch
handler — refuting release-exactly-once on every exit path. -/
theorem coupang_c3_counterexample :
    releaseCount (deleteConfirmedCoupangProduct (.ok ()) (.ok ()) (.ok ["X1"])
        (.error ()) (.ok ()) (.ok ())).1 = 2
    ∧ releaseCount (deleteConfirmedCoupangProduct (.ok ()) (.ok ()) (.ok ["X1"])
        (.error ()) (.ok ()) (.ok ())).1 ≠ 1 := by
  decide

/-- C3 amended.  After a successful login the context is always released at
least once and never leaked; it is released exactly once on every path
except in `deleteConfirmedCoupangProduct` when a step after the
mid-workflow release throws — the product-list fetch, or the stop-sale /
delete of a non-empty matched set — where the catch handler performs a
second release; `invoiceUpload` releases exactly once after a successful
login and performs no release when the login itself throws (that exception
propagates to the caller). -/
theorem coupang_c3_amended :
    (∀ (login navigate : Except Unit Unit) (extract : Except Unit (List String))
        (fetchList : Except Unit (List ApiProduct)) (stopSale deleteProds : Except Unit Unit),
        1 ≤ releaseCount (deleteConfirmedCoupangProduct login navigate extract
            fetchList stopSale deleteProds).1)
    ∧ (∀ (navigate : Except Unit Unit) (extract : Except Unit (List String))
        (fetchList : Except Unit (List ApiProduct)) (stopSale deleteProds : Except Unit Unit),
        releaseCount (deleteConfirmedCoupangProduct (.error ()) navigate extract
            fetchList stopSale deleteProds).1 = 1)
    ∧ (∀ (extract : Except Unit (List String))
        (fetchList : Except Unit (List ApiProduct)) (stopSale deleteProds : Except Unit Unit),
        releaseCount (deleteConfirmedCoupangProduct (.ok ()) (.error ()) extract
            fetchList stopSale deleteProds).1 = 1)
    ∧ (∀ (fetchList : Except Unit (List ApiProduct)) (stopSale deleteProds : Except Unit Unit),
        releaseCount (deleteConfirmedCoupangProduct (.ok ()) (.ok ()) (.error ())
            fetchList stopSale deleteProds).1 = 1)
    ∧ (∀ (codes : List String) (products : List ApiProduct),
        releaseCount (deleteConfirmedCoupangProduct (.ok ()) (.ok ()) (.ok codes)
            (.ok products) (.ok ()) (.ok ())).1 = 1)
    ∧ (∀ (codes : List String) (stopSale deleteProds : Except Unit Unit),
        releaseCount (deleteConfirmedCoupangProduct (.ok ()) (.ok ()) (.ok codes)
            (.error ()) stopSale deleteProds).1 = 2)
    ∧ (∀ (codes : List String) (products : List ApiProduct) (deleteProds : Except Unit Unit),
        0 < (findMatchingProducts codes products).length →
        releaseCount (deleteConfirmedCoupangProduct (.ok ()) (.ok ()) (.ok codes)
            (.ok products) (.error ()) deleteProds).1 = 2)
    ∧ (∀ (codes : List String) (products : List ApiProduct),
        0 < (findMatchingProducts codes products).length →
        releaseCount (deleteConfirmedCoupangProduct (.ok ()) (.ok ()) (.ok codes)
            (.ok products) (.ok ()) (.error ())).1 = 2)
    ∧ (∀ (navOk : Bool) (table : List (List String)) (orders : List InvOrder),
        releaseCount (invoiceUpload (.ok ()) navOk table orders).1 = 1)
    ∧ (∀ (navOk : Bool) (table : List (List String)) (orders : List InvOrder),
        releaseCount (invoiceUpload (.error ()) navOk table orders).1 = 0) := by
  refine ⟨?_, ?_, ?_, ?_, ?_, ?_, ?_, ?_, ?_, ?_⟩
  · intro login navigate extract fetchList stopSale deleteProds
    rcases login with _ | _
    · simp [deleteConfirmedCoupangProduct, deleteConfirmedBody, releaseCount]
    · rcases navigate with _ | _
      · simp [deleteConfirmedCoupangProduct, deleteConfirmedBody, releaseCount]
      · rcases extract with _ | codes
        · simp [deleteConfirmedCoupangProduct, deleteConfirmedBody, releaseCount]
        · rcases fetchList with _ | products
          · simp [deleteConfirmedCoupangProduct, deleteConfirmedBody, releaseCount]
          · by_cases hm : (findMatchingProducts codes products).length > 0
            · rcases stopSale with _ | _
              · simp [deleteConfirmedCoupangProduct, deleteConfirmedBody, releaseCount, hm]
              · rcases deleteProds with _ | _
                · simp [deleteConfirmedCoupangProduct, deleteConfirmedBody, releaseCount, hm]
                · simp [deleteConfirmedCoupangProduct, deleteConfirmedBody, releaseCount, hm]
            · simp [deleteConfirmedCoupangProduct, deleteConfirmedBody, releaseCount, hm]
  · intro navigate extract fetchList stopSale deleteProds
    rfl
  · intro extract fetchList stopSale deleteProds
    rfl
  · intro fetchList stopSale deleteProds
    rfl
  · intro codes products
    by_cases hm : (findMatchingProducts codes products).length > 0
    · simp [deleteConfirmedCoupangProduct, deleteConfirmedBody, releaseCount, hm]
    · simp [deleteConfirmedCoupangProduct, deleteConfirmedBody, releaseCount, hm]
  · intro codes stopSale deleteProds
    rfl
  · intro codes products deleteProds hm
    simp [deleteConfirmedCoupangProduct, deleteConfirmedBody, releaseCount, hm]
  · intro codes products hm
    simp [deleteConfirmedCoupangProduct, deleteConfirmedBody, releaseCount, hm]
  · intro navOk table orders
    rcases navOk with _ | _ <;> rfl
  · intro navOk table orders
    rfl

/-- C3 witness: the double-release path at a concrete non-empty matched set
and the exactly-once invoice-upload path. -/
theorem coupang_c3_witness :
    releaseCount (deleteConfirmedCoupangProduct (.ok ()) (.ok ()) (.ok ["A100"])
        (.ok [⟨1, "A100-Blue Widget"⟩]) (.error ()) (.ok ())).1 = 2
    ∧ releaseCount (invoiceUpload (.ok ()) true [[kimRow]] [kimOrder]).1 = 1 :=
  ⟨coupang_c3_amended.2.2.2.2.2.2.1 ["A100"] [⟨1, "A100-Blue Widget"⟩] (.ok ()) (by decide),
   coupang_c3_amended.2.2.2.2.2.2.2.2.1 true [[kimRow]] [kimOrder]⟩

/-! ### Stop-sale versus delete error handling -/

/-- C7. A stop-sale mutation failure is logged and swallowed — the caller
always sees a normal return (and the surrounding item loop completes over
every item, returning status success) — whereas a delete mutation failure
propagates unchanged to the caller, so the delete batch records the failure
by skipping that product while continuing with all the others. -/
theorem coupang_c7_stop_vs_delete :
    (∀ (vendorItemId : Nat) (req : Except String Unit),
        (putStopSellingItem vendorItemId req).2 = .ok ())
    ∧ (∀ (vendorItemId : Nat) (e : String),
        (putStopSellingItem vendorItemId (.error e)).1 = [(vendorItemId, e)])
    ∧ (∀ (sellerProductId : Nat) (req : Except String Unit),
        deleteProduct sellerProductId req = req)
    ∧ (∀ items : List (Nat × Except String Unit), (stopSaleItems items).2 = "success")
    ∧ (∀ (pre : List (Nat × Except String Unit)) (pid : Nat) (e : String)
        (post : List (Nat × Except String Unit)),
        deleteProductsBatch (pre ++ (pid, .error e) :: post)
          = deleteProductsBatch pre ++ deleteProductsBatch post) := by
  refine ⟨?_, fun v e => rfl, fun s r => rfl, fun items => rfl, ?_⟩
  · intro v req
    cases req <;> rfl
  · intro pre pid e post
    induction pre with
    | nil => rfl
    | cons it rest ih =>
      obtain ⟨pid', req'⟩ := it
      cases req' with
      | ok u => simp [deleteProductsBatch, deleteProduct, ih]
      | error e' => simp [deleteProductsBatch, deleteProduct, ih]

/-! ### Dispatcher theorems -/

/-- C9 counterexample: the unknown-pattern envelope carries the Korean
message `알 수 없는 패턴 유형: <pattern>`, not `unknown pattern: <pattern>`;
and a recognized pattern whose handler throws propagates the exception out
of `processMessage` (no try/catch) instead of returning a structured
result. -/
theorem coupang_c9_counterexample :
    processMessage (fun _ => Except.ok ()) "bogus"
      = .ok (.obj "error" (some "알 수 없는 패턴 유형: bogus") none)
    ∧ "알 수 없는 패턴 유형: bogus" ≠ "unknown pattern: bogus"
    ∧ processMessage (fun _ => (Except.error "boom" : Except String Unit))
        "getProductListPaging"
      = .error "boom" :=
  ⟨rfl, by decide, rfl⟩

/-- C9 amended.  For every inbound message whose pattern is not recognized,
the dispatcher returns the envelope
`{status: "error", message: "알 수 없는 패턴 유형: <pattern>"}`; for every
recognized pattern whose handler throws, the exception propagates unchanged
out of `processMessage` to the transport layer (the dispatcher itself
returns no structured result on that path). -/
theorem coupang_c9_amended :
    (∀ (α : Type) (handler : String → Except String α) (pattern : String),
        pattern ∉ knownPatterns →
          processMessage handler pattern
            = .ok (.obj "error" (some (unknownPatternMsg pattern)) none))
    ∧ (∀ (α : Type) (handler : String → Except String α) (pattern : String) (e : String),
        pattern ∈ knownPatterns → handler pattern = Except.error e →
          processMessage handler pattern = .error e) := by
  constructor
  · intro α handler pattern h
    simp only [knownPatterns, List.mem_cons, List.not_mem_nil, or_false, not_or] at h
    obtain ⟨h1, h2, h3, h4, h5, h6, h7, h8, h9, h10, h11, h12, h13, h14, h15, h16⟩ := h
    simp [processMessage, h1, h2, h3, h4, h5, h6, h7, h8, h9, h10, h11, h12, h13,
      h14, h15, h16]
  · intro α handler pattern e hmem he
    simp only [knownPatterns, List.mem_cons, List.not_mem_nil, or_false] at hmem
    rcases hmem with rfl | rfl | rfl | rfl | rfl | rfl | rfl | rfl | rfl | rfl | rfl
      | rfl | rfl | rfl | rfl | rfl <;>
      simp [processMessage, awaitThen, he]

/-- C9 witness: a concrete unknown pattern and a concrete throwing
handler. -/
theorem coupang_c9_witness :
    processMessage (fun _ => Except.ok ()) "zzz"
      = .ok (.obj "error" (some (unknownPatternMsg "zzz")) none)
    ∧ processMessage (fun _ => (Except.error "boom" : Except String Unit))
        "uploadInvoices"
      = .error "boom" :=
  ⟨coupang_c9_amended.1 Unit (fun _ => Except.ok ()) "zzz" (by decide),
   coupang_c9_amended.2 Unit (fun _ => Except.error "boom") "uploadInvoices" "boom"
     (by decide) rfl⟩

/-! ### Signer lemmas -/

theorem data_append (s t : String) : (s ++ t).data = s.data ++ t.data := rfl

theorem data_ext {s t : String} (h : s.data = t.data) : s = t := by
  cases s
  cases t
  exact congrArg String.mk h

theorem append_right_cancelS {a b c : String} (h : a ++ c = b ++ c) : a = b := by
  apply data_ext
  have hd := congrArg String.data h
  simp only [data_append] at hd
  exact List.append_cancel_right hd

theorem digitChar_not_sep (n : Nat) :
    (!(Nat.digitChar n == '-' || Nat.digitChar n == ':')) = true := by
  rcases n with _ | _ | _ | _ | _ | _ | _ | _ | _ | _ | _ | _ | _ | _ | _ | _ | n
  case succ => simp [Nat.digitChar]
  all_goals decide

theorem substr_list (t : DateTime) :
    ((toISOString t).data.drop 2).take 17
      = [Nat.digitChar (t.year / 10 % 10), Nat.digitChar (t.year % 10), '-',
         Nat.digitChar (t.month / 10), Nat.digitChar (t.month % 10), '-',
         Nat.digitChar (t.day / 10), Nat.digitChar (t.day % 10), 'T',
         Nat.digitChar (t.hour / 10), Nat.digitChar (t.hour % 10), ':',
         Nat.digitChar (t.minute / 10), Nat.digitChar (t.minute % 10), ':',
         Nat.digitChar (t.second / 10), Nat.digitChar (t.second % 10)] := rfl

theorem coupangDatetime_eq_spec (t : DateTime) :
    coupangDatetime t = specTimestamp t := by
  apply data_ext
  unfold coupangDatetime jsSubstr stripSeps
  simp only [data_append, substr_list]
  simp only [List.filter_cons, digitChar_not_sep]
  norm_num
  simp only [specTimestamp, pad2, data_append]
  simp only [List.cons_append, List.nil_append, List.cons.injEq, and_true]
  refine ⟨congrArg Nat.digitChar (by omega), congrArg Nat.digitChar (by omega),
    trivial, trivial, trivial, trivial, ?_⟩
  rw [if_pos (by decide)]
  simp

/-- C8. The signature is the HMAC of the secret key applied to
`timestamp ++ method ++ path ++ canonicalized-query` (empty string when no
query); the paging mode always canonicalizes the fixed parameter set
vendorId / nextToken / maxPerPage=100 / status=APPROVED; the authorization
header has the exact `CEA algorithm=HmacSHA256, access-key=..,
signed-date=.., signature=..` shape; and the timestamp is the truncated
ISO8601 string with the `-` and `:` separators stripped plus trailing `Z`,
rebuilt here as the spec-side `specTimestamp`. -/
theorem coupang_c8_signing :
    ∀ (hmac : String → String → String) (secretKey accessKey vendorId : String)
      (t : DateTime) (method path nextToken : String),
      ValidTime t →
        signQuery vendorId nextToken true
          = "vendorId=" ++ formEncode vendorId ++ "&nextToken=" ++ formEncode nextToken
            ++ "&maxPerPage=100&status=APPROVED"
        ∧ signQuery vendorId nextToken false = ""
        ∧ (∀ useQuery,
            signSignature hmac secretKey vendorId t method path nextToken useQuery
              = hmac secretKey (specTimestamp t ++ method ++ path
                  ++ signQuery vendorId nextToken useQuery))
        ∧ (∀ useQuery,
            createHmacSignature hmac secretKey accessKey vendorId t method path
                nextToken useQuery
              = ("CEA algorithm=HmacSHA256, access-key=" ++ accessKey ++ ", signed-date="
                  ++ specTimestamp t ++ ", signature="
                  ++ hmac secretKey (specTimestamp t ++ method ++ path
                      ++ signQuery vendorId nextToken useQuery),
                 specTimestamp t))
        ∧ createParamHmacSignature hmac secretKey accessKey t method path
            (pagingParams vendorId nextToken)
          = ("CEA algorithm=HmacSHA256, access-key=" ++ accessKey ++ ", signed-date="
              ++ specTimestamp t ++ ", signature="
              ++ hmac secretKey (specTimestamp t ++ method ++ path
                  ++ urlSearchParams (pagingParams vendorId nextToken)),
             specTimestamp t) := by
  intro hmac secretKey accessKey vendorId t method path nextToken hv
  have hd : coupangDatetime t = specTimestamp t := coupangDatetime_eq_spec t
  refine ⟨?_, rfl, ?_, ?_, ?_⟩
  · have f1 : formEncode "vendorId" = "vendorId" := by decide
    have f2 : formEncode "nextToken" = "nextToken" := by decide
    have f3 : formEncode "maxPerPage" = "maxPerPage" := by decide
    have f4 : formEncode "100" = "100" := by decide
    have f5 : formEncode "status" = "status" := by decide
    have f6 : formEncode "APPROVED" = "APPROVED" := by decide
    simp only [signQuery, if_pos, urlSearchParams, pagingParams]
    rw [f1, f2, f3, f4, f5, f6]
    apply data_ext
    simp only [data_append, List.append_assoc]
    simp [List.cons_append, List.nil_append, List.append_assoc]
  · intro useQuery
    simp only [signSignature, signMessage, hd]
  · intro useQuery
    simp only [createHmacSignature, signSignature, signMessage, hd]
  · simp only [createParamHmacSignature, hd]

set_option maxRecDepth 8192 in
/-- C8 witness at a concrete instant, secret and cursor, with the HMAC
collaborator instantiated by the message projection. -/
theorem coupang_c8_witness :
    createHmacSignature (fun _ m => m) "SK" "AK" "VID1"
        ⟨2026, 10, 11, 12, 34, 56, 789⟩ "GET" "/pp" "tokA" true
      = ("CEA algorithm=HmacSHA256, access-key=AK, signed-date=261011T123456Z, signature="
          ++ "261011T123456ZGET/ppvendorId=VID1&nextToken=tokA&maxPerPage=100&status=APPROVED",
         "261011T123456Z") := by
  have h := coupang_c8_signing (fun _ m => m) "SK" "AK" "VID1"
    ⟨2026, 10, 11, 12, 34, 56, 789⟩ "GET" "/pp" "tokA"
    ⟨by decide, by decide, by decide, by decide, by decide, by decide, by decide⟩
  rw [h.2.2.2.1 true]
  decide

/-- C10. The signer output is a function of the formatted timestamp and the
request data alone (identical timestamp, identical inputs — identical
authorization and signature); and for two calls whose timestamps differ,
the signed messages differ by prefix-cancellation, hence for any
collision-free (injective in the message) HMAC collaborator the produced
signatures differ. -/
theorem coupang_c10_determinism :
    ∀ (hmac : String → String → String) (secretKey accessKey vendorId : String)
      (method path nextToken : String) (useQuery : Bool) (t1 t2 : DateTime),
      (coupangDatetime t1 = coupangDatetime t2 →
        createHmacSignature hmac secretKey accessKey vendorId t1 method path
            nextToken useQuery
          = createHmacSignature hmac secretKey accessKey vendorId t2 method path
            nextToken useQuery)
      ∧ ((∀ m1 m2, hmac secretKey m1 = hmac secretKey m2 → m1 = m2) →
        coupangDatetime t1 ≠ coupangDatetime t2 →
        signSignature hmac secretKey vendorId t1 method path nextToken useQuery
          ≠ signSignature hmac secretKey vendorId t2 method path nextToken useQuery) := by
  intro hmac secretKey accessKey vendorId method path nextToken useQuery t1 t2
  constructor
  · intro h
    simp only [createHmacSignature, signSignature, signMessage, h]
  · intro hinj hne hEq
    apply hne
    have hmsg : coupangDatetime t1 ++ method ++ path ++ signQuery vendorId nextToken useQuery
        = coupangDatetime t2 ++ method ++ path ++ signQuery vendorId nextToken useQuery :=
      hinj _ _ hEq
    exact append_right_cancelS (append_right_cancelS (append_right_cancelS hmsg))

/-- C10 witness: timestamps one second apart give different signatures (with
the injective message-projection standing for the HMAC); instants equal up
to the second (differing only in dropped milliseconds) give identical
output. -/
theorem coupang_c10_witness :
    signSignature (fun _ m => m) "SK" "VID1" ⟨2026, 10, 11, 12, 34, 56, 789⟩
        "GET" "/pp" "tokA" true
      ≠ signSignature (fun _ m => m) "SK" "VID1" ⟨2026, 10, 11, 12, 34, 57, 789⟩
        "GET" "/pp" "tokA" true
    ∧ createHmacSignature (fun _ m => m) "SK" "AK" "VID1"
        ⟨2026, 10, 11, 12, 34, 56, 789⟩ "GET" "/pp" "tokA" true
      = createHmacSignature (fun _ m => m) "SK" "AK" "VID1"
        ⟨2026, 10, 11, 12, 34, 56, 0⟩ "GET" "/pp" "tokA" true :=
  ⟨(coupang_c10_determinism (fun _ m => m) "SK" "AK" "VID1" "GET" "/pp" "tokA" true
      ⟨2026, 10, 11, 12, 34, 56, 789⟩ ⟨2026, 10, 11, 12, 34, 57, 789⟩).2
      (fun m1 m2 h => h) (by decide),
   (coupang_c10_determinism (fun _ m => m) "SK" "AK" "VID1" "GET" "/pp" "tokA" true
      ⟨2026, 10, 11, 12, 34, 56, 789⟩ ⟨2026, 10, 11, 12, 34, 56, 0⟩).1 (by decide)⟩

end AutoStore
